import Mathlib

/-
Verification of the matching and synchronization engine of the
audiobooksync repository (src/models.py, src/sync/matcher.py,
src/sync/worker.py), as a shallow embedding in Lean 4.

Modelling conventions:
- Python floats become Rat; SQL Integer columns become Int or Nat.
- Nullable timestamp columns become Option Nat (an abstract clock value).
- The nullable isbn column becomes String, with "" standing for both NULL
  and the empty string: the source only tests it by truthiness (if book.isbn),
  which is false exactly for None and "".
- Platform adapters (HardcoversClient, StoryGraphClient, AudiobookShelfClient)
  and the fuzzywuzzy scoring function are external collaborators; they are
  modelled as function-valued fields of environment records.
- Database tables become lists of rows; db.commit is modelled by returning
  the updated rows.  Adapter faults (raised exceptions) that the source code
  catches at the call site are modelled by an explicit outcome constructor.
-/

namespace AudiobookSync

/-- AudioBook row (src/models.py, class AudioBook).  Fields not read by the
sync or matching code (started_at, finished_at, created_at, updated_at) are
omitted. -/
structure AudioBook where
  id : Nat
  audiobookshelf_id : String
  title : String
  author : String
  isbn : String
  current_progress : Rat
  total_duration : Int
  is_finished : Bool
  last_synced_at : Option Nat
deriving DecidableEq

/-- BookMapping row (src/models.py, class BookMapping). -/
structure BookMapping where
  id : Nat
  audiobook_id : Nat
  platform : String
  platform_book_id : String
  match_confidence : Rat
  is_manual_override : Bool
deriving DecidableEq

/-- SyncJob row (src/models.py, class SyncJob).  completed_at_set records
whether the completed_at timestamp column has been written. -/
structure SyncJob where
  job_type : String
  status : String
  total_items : Nat
  processed_items : Nat
  error_message : Option String
  completed_at_set : Bool
deriving DecidableEq

/-! ### Sync worker (src/sync/worker.py) -/

/-- Result of one adapter update_reading_progress call: returned True,
returned False, or raised an exception (which the worker catches). -/
inductive UpdateOutcome
  | ok
  | failed
  | fault
deriving DecidableEq

/-- External adapter calls available to the sync worker. -/
structure SyncEnv where
  hardcoversUpdate : String → Rat → UpdateOutcome
  storygraphUpdate : String → Rat → Bool → UpdateOutcome

/-- Record of one update-progress adapter invocation made by the worker. -/
inductive SyncCall
  | hardcovers (platform_book_id : String) (percent : Rat)
  | storygraph (platform_book_id : String) (percent : Rat) (finished : Bool)
deriving DecidableEq

/-- progress_percent before clamping (worker.py lines 95 and 125):
(book.current_progress / book.total_duration * 100) if total_duration > 0
else 0. -/
def progressPercent (book : AudioBook) : Rat :=
  if book.total_duration > 0 then
    book.current_progress / (book.total_duration : Rat) * 100
  else 0

/-- min(100, max(0, x)) clamp from worker.py lines 96 and 126. -/
def clampPercent (x : Rat) : Rat := min 100 (max 0 x)

/-- SyncWorker._sync_to_hardcovers (worker.py lines 86 to 114).  Returns the
boolean outcome together with the list of adapter calls actually made.  A
raised adapter exception is caught and yields False, after the call was made. -/
def syncToHardcovers (env : SyncEnv) (book : AudioBook) (mapping : BookMapping) :
    Bool × List SyncCall :=
  if book.total_duration = 0 then (false, [])
  else
    let pct := clampPercent (progressPercent book)
    match env.hardcoversUpdate mapping.platform_book_id pct with
    | .ok => (true, [SyncCall.hardcovers mapping.platform_book_id pct])
    | .failed => (false, [SyncCall.hardcovers mapping.platform_book_id pct])
    | .fault => (false, [SyncCall.hardcovers mapping.platform_book_id pct])

/-- SyncWorker._sync_to_storygraph (worker.py lines 116 to 145). -/
def syncToStorygraph (env : SyncEnv) (book : AudioBook) (mapping : BookMapping) :
    Bool × List SyncCall :=
  if book.total_duration = 0 then (false, [])
  else
    let pct := clampPercent (progressPercent book)
    match env.storygraphUpdate mapping.platform_book_id pct book.is_finished with
    | .ok => (true, [SyncCall.storygraph mapping.platform_book_id pct book.is_finished])
    | .failed => (false, [SyncCall.storygraph mapping.platform_book_id pct book.is_finished])
    | .fault => (false, [SyncCall.storygraph mapping.platform_book_id pct book.is_finished])

/-- Dispatch on mapping.platform inside the loop of sync_book_progress
(worker.py lines 64 to 71).  An unknown platform hits the else branch, which
logs a warning and continues: no adapter call and no success increment,
represented as (false, []). -/
def syncOne (env : SyncEnv) (book : AudioBook) (m : BookMapping) :
    Bool × List SyncCall :=
  if m.platform = "hardcovers" then syncToHardcovers env book m
  else if m.platform = "storygraph" then syncToStorygraph env book m
  else (false, [])

/-- One iteration of the mapping loop: accumulates the success count and the
adapter calls made (worker.py lines 64 to 74). -/
def syncFoldStep (env : SyncEnv) (book : AudioBook)
    (acc : Nat × List SyncCall) (m : BookMapping) : Nat × List SyncCall :=
  (acc.1 + (if (syncOne env book m).1 then 1 else 0), acc.2 ++ (syncOne env book m).2)

/-- SyncWorker.sync_book_progress (worker.py lines 37 to 84).  The mapping
table query is modelled by passing the list of mappings of the book.  Returns
(returned boolean, book row after the call, adapter calls made).  With no
mappings the function returns False early, before the last-sync update at
line 77; otherwise the timestamp is set and committed after the loop,
whatever the per-platform outcomes were. -/
def sync_book_progress (env : SyncEnv) (book : AudioBook)
    (mappings : List BookMapping) (now : Nat) : Bool × AudioBook × List SyncCall :=
  if mappings.isEmpty then (false, book, [])
  else
    let acc := mappings.foldl (syncFoldStep env book) (0, [])
    (decide (0 < acc.1), { book with last_synced_at := some now }, acc.2)

/-! ### Book matcher (src/sync/matcher.py) -/

/-- Authors field of a platform search result: the source accepts either a
list of strings or a single string (matcher.py lines 134 to 137). -/
inductive AuthorsField
  | list (authors : List String)
  | str (s : String)
deriving DecidableEq

/-- One platform search result (a candidate dict with id, title, authors). -/
structure Candidate where
  id : String
  title : String
  authors : AuthorsField
deriving DecidableEq

/-- BookMatcher.MIN_FUZZY_SCORE (matcher.py line 19). -/
def MIN_FUZZY_SCORE : Nat := 80

/-- Python str.lower on one character, restricted to ASCII.  An executable
stand-in for the case folding done at matcher.py line 142 (the Lean core
String.toLower is not kernel-reducible). -/
def pyLowerChar (c : Char) : Char :=
  if 'A' ≤ c ∧ c ≤ 'Z' then Char.ofNat (c.toNat + 32) else c

/-- Python str.lower, character by character. -/
def pyLower (s : String) : String := String.mk (s.data.map pyLowerChar)

/-- Python str.strip: drop whitespace from both ends (executable stand-in
for String.trim, which is not kernel-reducible). -/
def pyStrip (s : String) : String :=
  String.mk
    (((s.data.dropWhile Char.isWhitespace).reverse.dropWhile Char.isWhitespace).reverse)

/-- result_author computation (matcher.py lines 134 to 137): a list is joined
with spaces when non-empty, a plain string is kept (str of a string is itself,
and an empty string is falsy and mapped to ""). -/
def authorText : AuthorsField → String
  | .list as => if as.isEmpty then "" else String.intercalate " " as
  | .str s => s

/-- result_text (matcher.py line 139). -/
def candidateText (r : Candidate) : String :=
  pyStrip (r.title ++ " " ++ authorText r.authors)

/-- The dict returned by the matching helpers, restricted to the keys the
rest of the engine reads: platform_id and confidence (the title, authors and
is_manual keys are only logged or ignored by callers). -/
structure MatchResult where
  platform_id : String
  confidence : Rat
deriving DecidableEq

/-- External collaborators of the matcher: the fuzzywuzzy token-set scorer
and the two platform adapters.  Adapter faults are modelled as empty results,
which is observationally what the enclosing try blocks produce. -/
structure MatchEnv where
  tokenSetScore : String → String → Nat
  hardcoversSearch : String → Nat → List Candidate
  storygraphSearch : String → List Candidate
  hardcoversByIsbn : String → Option Candidate

/-- Record of one remote matcher call. -/
inductive MCall
  | isbnLookup (isbn : String)
  | hcSearch (query : String) (limit : Nat)
  | sgSearch (query : String)
deriving DecidableEq

/-- Similarity score of one candidate against the query
(matcher.py line 142): fuzz.token_set_ratio(query.lower(), result_text.lower()). -/
def candScore (env : MatchEnv) (query : String) (r : Candidate) : Nat :=
  env.tokenSetScore (pyLower query) (pyLower (candidateText r))

/-- One iteration of the scoring loop (matcher.py lines 130 to 153): the
accumulator is (best_match, best_score), updated when
score > best_score and score >= MIN_FUZZY_SCORE, storing
confidence = best_score / 100 at update time. -/
def fuzzStep (env : MatchEnv) (query : String)
    (acc : Option MatchResult × Nat) (r : Candidate) : Option MatchResult × Nat :=
  if acc.2 < candScore env query r ∧ MIN_FUZZY_SCORE ≤ candScore env query r then
    (some { platform_id := r.id, confidence := (candScore env query r : Rat) / 100 },
     candScore env query r)
  else acc

/-- The scoring loop of _match_by_fuzzy over a candidate list, starting from
best_match = None, best_score = 0 (matcher.py lines 127 to 161). -/
def matchByFuzzyCore (env : MatchEnv) (query : String)
    (results : List Candidate) : Option MatchResult :=
  (results.foldl (fuzzStep env query) (none, 0)).1

/-- query string built from title and author (matcher.py line 113). -/
def buildQuery (book : AudioBook) : String :=
  pyStrip (book.title ++ " " ++ book.author)

/-- BookMatcher._match_by_fuzzy (matcher.py lines 108 to 165), returning the
result together with the remote calls made. -/
def matchByFuzzy (env : MatchEnv) (book : AudioBook) (platform : String) :
    Option MatchResult × List MCall :=
  let query := buildQuery book
  if platform = "hardcovers" then
    let results := env.hardcoversSearch query 5
    (if results.isEmpty then none else matchByFuzzyCore env query results,
     [MCall.hcSearch query 5])
  else if platform = "storygraph" then
    let results := env.storygraphSearch query
    (if results.isEmpty then none else matchByFuzzyCore env query results,
     [MCall.sgSearch query])
  else (none, [])

/-- BookMatcher._match_by_isbn (matcher.py lines 82 to 106): only hardcovers
has an ISBN lookup; storygraph falls through (pass), any other platform
returns None without a call.  A non-empty lookup result gets confidence 1.0. -/
def matchByIsbn (env : MatchEnv) (book : AudioBook) (platform : String) :
    Option MatchResult × List MCall :=
  if platform = "hardcovers" then
    match env.hardcoversByIsbn book.isbn with
    | some r => (some { platform_id := r.id, confidence := 1 }, [MCall.isbnLookup book.isbn])
    | none => (none, [MCall.isbnLookup book.isbn])
  else (none, [])

/-- First mapping row for (audiobook_id, platform), the model of the
filtered query with .first() (matcher.py lines 55 to 58 and 221 to 224). -/
def findMapping (db : List BookMapping) (bookId : Nat) (platform : String) :
    Option BookMapping :=
  db.find? (fun m => m.audiobook_id == bookId && m.platform == platform)

/-- BookMatcher.match_book_on_platform (matcher.py lines 36 to 80): existing
mapping short-circuit, then ISBN match when book.isbn is truthy, then the
fuzzy fallback.  The function itself persists nothing. -/
def match_book_on_platform (env : MatchEnv) (db : List BookMapping)
    (book : AudioBook) (platform : String) : Option MatchResult × List MCall :=
  match findMapping db book.id platform with
  | some existing =>
      (some { platform_id := existing.platform_book_id,
              confidence := existing.match_confidence }, [])
  | none =>
      if book.isbn ≠ "" then
        match matchByIsbn env book platform with
        | (some r, cs) => (some r, cs)
        | (none, cs) =>
            let fz := matchByFuzzy env book platform
            (fz.1, cs ++ fz.2)
      else
        matchByFuzzy env book platform

/-- BookMatcher.save_match (matcher.py lines 167 to 188): inserts one new
BookMapping row (is_manual defaults to False at the automated call sites).
Returns the new table and the inserted row; nextId models the autoincrement
primary key. -/
def save_match (db : List BookMapping) (nextId : Nat) (book_id : Nat)
    (platform : String) (platform_book_id : String) (confidence : Rat)
    (is_manual : Bool) : List BookMapping × BookMapping :=
  let m : BookMapping :=
    { id := nextId, audiobook_id := book_id, platform := platform,
      platform_book_id := platform_book_id, match_confidence := confidence,
      is_manual_override := is_manual }
  (db ++ [m], m)

/-- State threaded through match_all_books: the mapping table, the next
primary key, and the per-platform results dict. -/
structure MatchState where
  db : List BookMapping
  nextId : Nat
  counts : List (String × Nat)

/-- results[platform] += 1 on the association-list model of the dict. -/
def bumpCount (counts : List (String × Nat)) (platform : String) :
    List (String × Nat) :=
  counts.map (fun e => if e.1 = platform then (e.1, e.2 + 1) else e)

/-- Inner body of the match_all_books loops for one (book, platform) pair
(matcher.py lines 219 to 236): skip when a mapping already exists, else
match and, on success, save with match.get("confidence", 1.0) — the
confidence key is always present on returned match dicts — and is_manual
left at its False default. -/
def matchStep (env : MatchEnv) (book : AudioBook) (platform : String)
    (st : MatchState) : MatchState :=
  match findMapping st.db book.id platform with
  | some _ => st
  | none =>
      match (match_book_on_platform env st.db book platform).1 with
      | none => st
      | some r =>
          let saved := save_match st.db st.nextId book.id platform
            r.platform_id r.confidence false
          { db := saved.1, nextId := st.nextId + 1,
            counts := bumpCount st.counts platform }

/-- BookMatcher.match_all_books (matcher.py lines 190 to 247): for every book
and every requested platform, run matchStep; the progress callback has no
effect on the resulting state and is omitted. -/
def match_all_books (env : MatchEnv) (books : List AudioBook)
    (db : List BookMapping) (nextId : Nat) (platforms : List String) : MatchState :=
  books.foldl
    (fun st book => platforms.foldl (fun st p => matchStep env book p st) st)
    { db := db, nextId := nextId, counts := platforms.map (fun p => (p, 0)) }

/-- Number of mapping rows for one (book, platform) pair. -/
def countPair (db : List BookMapping) (bookId : Nat) (platform : String) : Nat :=
  (db.filter (fun m => m.audiobook_id == bookId && m.platform == platform)).length

/-! ### Periodic sync runner (src/sync/worker.py lines 147 to 292) -/

/-- SyncWorker.create_sync_job (worker.py lines 147 to 162): the job is
inserted with status running, the given totals, and processed_items at its
column default 0. -/
def create_sync_job (job_type : String) (total_items : Nat) : SyncJob :=
  { job_type := job_type, status := "running", total_items := total_items,
    processed_items := 0, error_message := none, completed_at_set := false }

/-- SyncWorker.update_sync_job (worker.py lines 164 to 178): overwrites
processed_items, status and error_message, and stamps completed_at on the
terminal statuses. -/
def update_sync_job (job : SyncJob) (processed_items : Nat) (status : String)
    (error_message : Option String) : SyncJob :=
  { job with
    processed_items := processed_items
    status := status
    error_message := error_message
    completed_at_set :=
      if status = "completed" ∨ status = "failed" then true
      else job.completed_at_set }

/-- One library dict from get_user_libraries, reduced to the id read by the
runner. -/
structure Library where
  id : String
deriving DecidableEq

/-- One library item dict, reduced to the keys the runner reads (with their
defaults already applied: item.get("title", "Unknown") and so on). -/
structure Item where
  id : String
  title : String
  author : String
  isbn : String
deriving DecidableEq

/-- get_progress payload (progress, isFinished, duration keys with their
defaults applied). -/
structure ProgressData where
  progress : Rat
  isFinished : Bool
  duration : Int
deriving DecidableEq

/-- External world of one run_periodic_sync pass.  libraries is the list
returned by get_user_libraries; an entry of none models a malformed element
on which library.get at worker.py line 212 raises, outside the per-library
handler, producing the fatal path of lines 284 to 292.  items and
getProgress return .error when the adapter call raises inside the
per-library or per-item handler.  mappings is the BookMapping table read by
sync_book_progress, and syncEnv carries the progress-update adapters. -/
structure RunEnv where
  libraries : List (Option Library)
  items : String → Except String (List Item)
  getProgress : String → Except String (Option ProgressData)
  syncEnv : SyncEnv
  mappings : List BookMapping
  books0 : List AudioBook
  nextBookId0 : Nat
  now : Nat

/-- Mutable state of one pass: the AudioBook table, the counters and error
list, the job row, and the trace of every persisted state of that row. -/
structure RunState where
  books : List AudioBook
  nextBookId : Nat
  synced : Nat
  failed : Nat
  total_books : Nat
  errors : List String
  job : SyncJob
  trace : List SyncJob

/-- Persist one update_sync_job call and append the resulting row state to
the trace. -/
def recordUpdate (st : RunState) (processed : Nat) (status : String)
    (err : Option String) : RunState :=
  let j := update_sync_job st.job processed status err
  { st with job := j, trace := st.trace ++ [j] }

/-- Error string of the per-item handler (worker.py line 257). -/
def itemErr (bookId msg : String) : String :=
  "Error syncing book " ++ bookId ++ ": " ++ msg

/-- Error string of the per-library handler (worker.py line 265). -/
def libErr (libraryId msg : String) : String :=
  "Error syncing library " ++ libraryId ++ ": " ++ msg

/-- Replace the AudioBook row with the given primary key. -/
def updateBookRow (books : List AudioBook) (bid : Nat) (nb : AudioBook) :
    List AudioBook :=
  books.map (fun b => if b.id = bid then nb else b)

/-- Get-or-create of the AudioBook row keyed by audiobookshelf_id
(worker.py lines 227 to 240). -/
def getOrCreateBook (st : RunState) (item : Item) : RunState × AudioBook :=
  match st.books.find? (fun b => b.audiobookshelf_id == item.id) with
  | some b => (st, b)
  | none =>
      let b : AudioBook :=
        { id := st.nextBookId, audiobookshelf_id := item.id, title := item.title,
          author := item.author, isbn := item.isbn, current_progress := 0,
          total_duration := 0, is_finished := false, last_synced_at := none }
      ({ st with books := st.books ++ [b], nextBookId := st.nextBookId + 1 }, b)

/-- Counter update after one sync_book_progress call
(worker.py lines 250 to 253). -/
def bumpCounters (st : RunState) (ok : Bool) : RunState :=
  if ok then { st with synced := st.synced + 1 }
  else { st with failed := st.failed + 1 }

/-- Per-item body of run_periodic_sync (worker.py lines 217 to 262).  A
raised fault inside the item handler is modelled by getProgress returning
.error: the handler counts the item failed, appends the error string, and
the job update at line 262 still runs.  An absent progress payload hits the
continue at line 224, skipping the item without a job update.  Otherwise the
book row is upserted, its progress fields and last_synced_at are written
(lines 243 to 247), sync_book_progress runs on it, and the counters and job
are updated. -/
def itemStep (env : RunEnv) (st : RunState) (item : Item) : RunState :=
  match env.getProgress item.id with
  | .error e =>
      let st1 := { st with
                   failed := st.failed + 1
                   errors := st.errors ++ [itemErr item.id e] }
      recordUpdate st1 (st1.synced + st1.failed) "running" none
  | .ok none => st
  | .ok (some pd) =>
      let c := getOrCreateBook st item
      let book := { c.2 with
                    current_progress := pd.progress
                    is_finished := pd.isFinished
                    total_duration := pd.duration
                    last_synced_at := some env.now }
      let mappings := env.mappings.filter (fun mp => mp.audiobook_id == book.id)
      let res := sync_book_progress env.syncEnv book mappings env.now
      let st2 := { c.1 with books := updateBookRow c.1.books book.id res.2.1 }
      let st3 := bumpCounters st2 res.1
      recordUpdate st3 (st3.synced + st3.failed) "running" none

/-- Per-library body (worker.py lines 211 to 267).  A none entry raises at
library.get before the per-library try, aborting the pass (.error carries
the state at that point).  A fault while listing items appends the library
error string and moves on.  Otherwise total_books grows by the item count and
every item is processed. -/
def libStep (env : RunEnv) (st : RunState) (entry : Option Library) :
    Except RunState RunState :=
  match entry with
  | none => .error st
  | some lib =>
      match env.items lib.id with
      | .error e => .ok { st with errors := st.errors ++ [libErr lib.id e] }
      | .ok its =>
          .ok (its.foldl (itemStep env)
            { st with total_books := st.total_books + its.length })

/-- The library loop, propagating the fatal abort. -/
def runLibs (env : RunEnv) : List (Option Library) → RunState → Except RunState RunState
  | [], st => .ok st
  | e :: rest, st =>
      match libStep env st e with
      | .error s => .error s
      | .ok s => runLibs env rest s

/-- Dict returned by run_periodic_sync: the total_books key is absent (none)
on the empty-library return and on the fatal return. -/
structure RunResult where
  synced_count : Nat
  failed_count : Nat
  total_books : Option Nat
  errors : List String
deriving DecidableEq

/-- Message of the fatal handler (worker.py line 285); the exception text is
abstracted away. -/
def fatalMsg : String := "Fatal error during periodic sync"

/-- Initial pass state, after create_sync_job. -/
def initState (env : RunEnv) : RunState :=
  { books := env.books0, nextBookId := env.nextBookId0, synced := 0,
    failed := 0, total_books := 0, errors := [],
    job := create_sync_job "sync_progress" 0,
    trace := [create_sync_job "sync_progress" 0] }

/-- SyncWorker.run_periodic_sync (worker.py lines 179 to 292).  Returns the
result dict and the trace of persisted job states.  The job is created with
total_items = 0 and total_items is never updated afterwards.  On the fatal
path the job is finalized failed with processed_items 0 and the returned
counts are both 0, whatever was counted before. -/
def run_periodic_sync (env : RunEnv) : RunResult × List SyncJob :=
  let job0 := create_sync_job "sync_progress" 0
  if env.libraries.isEmpty then
    let j1 := update_sync_job job0 0 "completed" none
    ({ synced_count := 0, failed_count := 0, total_books := none, errors := [] },
     [job0, j1])
  else
    match runLibs env env.libraries (initState env) with
    | .ok s =>
        let j := update_sync_job s.job (s.synced + s.failed) "completed" none
        ({ synced_count := s.synced, failed_count := s.failed,
           total_books := some s.total_books, errors := s.errors },
         s.trace ++ [j])
    | .error s =>
        let j := update_sync_job s.job 0 "failed" (some fatalMsg)
        ({ synced_count := 0, failed_count := 0, total_books := none,
           errors := [fatalMsg] },
         s.trace ++ [j])

/-- Item count enumerated by the pass (the final value of the local
total_books counter, whether or not the pass ended fatally). -/
def runEnumerated (env : RunEnv) : Nat :=
  match runLibs env env.libraries (initState env) with
  | .ok s => s.total_books
  | .error s => s.total_books

/-- State in which the library loop left the pass, fatal or not. -/
def passState : Except RunState RunState → RunState
  | .ok s => s
  | .error s => s

/-- Invariant maintained across the pass: every persisted job state has
total_items equal to 0 and processed_items bounded by the items enumerated
so far, the live job row still has total_items 0, and the counters are
bounded by the items enumerated so far. -/
def jobTraceInv (st : RunState) : Prop :=
  (∀ j ∈ st.trace, j.total_items = 0 ∧ j.processed_items ≤ st.total_books)
  ∧ st.job.total_items = 0
  ∧ st.synced + st.failed ≤ st.total_books

/-- Highest similarity score over a candidate list (for stating what the
scoring loop selects). -/
def bestOf (env : MatchEnv) (query : String) (l : List Candidate) : Nat :=
  l.foldr (fun r a => max (candScore env query r) a) 0

/-! ### Concrete fixtures used by counterexamples and witnesses -/

/-- Adapters whose update calls always return False. -/
def envNoop : SyncEnv :=
  { hardcoversUpdate := fun _ _ => UpdateOutcome.failed
    storygraphUpdate := fun _ _ _ => UpdateOutcome.failed }

/-- Adapters whose update calls always return True. -/
def envOk : SyncEnv :=
  { hardcoversUpdate := fun _ _ => UpdateOutcome.ok
    storygraphUpdate := fun _ _ _ => UpdateOutcome.ok }

def bookA : AudioBook :=
  { id := 1, audiobookshelf_id := "abs1", title := "Dune", author := "Frank Herbert",
    isbn := "", current_progress := 50, total_duration := 100, is_finished := false,
    last_synced_at := none }

/-- Same book with a zero total duration. -/
def bookZ : AudioBook := { bookA with total_duration := 0 }

/-- Same book with an ISBN. -/
def bookI : AudioBook := { bookA with isbn := "9780441013593" }

def mapHC : BookMapping :=
  { id := 10, audiobook_id := 1, platform := "hardcovers", platform_book_id := "hc1",
    match_confidence := 9 / 10, is_manual_override := false }

def mapManual : BookMapping := { mapHC with id := 12, is_manual_override := true }

def mapUnknown : BookMapping := { mapHC with id := 11, platform := "goodreads" }

/-- Matcher environment with no remote results at all. -/
def matchEnvNone : MatchEnv :=
  { tokenSetScore := fun _ _ => 0
    hardcoversSearch := fun _ _ => []
    storygraphSearch := fun _ => []
    hardcoversByIsbn := fun _ => none }

def candA : Candidate := { id := "cA", title := "alpha", authors := AuthorsField.list [] }

def candB : Candidate := { id := "cB", title := "beta", authors := AuthorsField.list [] }

def candC : Candidate := { id := "cC", title := "gamma", authors := AuthorsField.str "" }

/-- Scorer giving the three candidates above the scores 60, 79 and 81. -/
def score3 : String → String → Nat := fun _ t =>
  if t = "alpha" then 60 else if t = "beta" then 79 else if t = "gamma" then 81 else 0

def env3 : MatchEnv := { matchEnvNone with tokenSetScore := score3 }

/-- Scorer whose best score over the candidates is 79. -/
def score79 : String → String → Nat := fun _ t => if t = "beta" then 79 else 60

def env79 : MatchEnv := { matchEnvNone with tokenSetScore := score79 }

def candIsbn : Candidate :=
  { id := "hcX", title := "Dune", authors := AuthorsField.list ["Frank Herbert"] }

/-- Matcher environment whose hardcovers ISBN lookup succeeds. -/
def matchEnvIsbn : MatchEnv :=
  { matchEnvNone with hardcoversByIsbn := fun _ => some candIsbn }

def libL : Library := { id := "L1" }

def itemB1 : Item := { id := "it1", title := "T1", author := "A1", isbn := "" }

def pdOne : ProgressData := { progress := 1, isFinished := false, duration := 10 }

/-- One library with one item whose progress is available; the item has no
mappings, so its sync reports failure and the item is counted. -/
def envC2 : RunEnv :=
  { libraries := [some libL]
    items := fun _ => Except.ok [itemB1]
    getProgress := fun _ => Except.ok (some pdOne)
    syncEnv := envNoop
    mappings := []
    books0 := []
    nextBookId0 := 1
    now := 0 }

/-- Same pass followed by a malformed library entry: one item is processed
and counted before the fatal fault. -/
def envC9 : RunEnv := { envC2 with libraries := [some libL, none] }

/-! ### Helper lemmas: the per-mapping loop of sync_book_progress -/

theorem syncFold_fst (env : SyncEnv) (book : AudioBook) :
    ∀ (ms : List BookMapping) (c : Nat) (cs : List SyncCall),
      (ms.foldl (syncFoldStep env book) (c, cs)).1
        = c + ms.countP (fun m => (syncOne env book m).1) := by
  intro ms
  induction ms with
  | nil => intro c cs; simp
  | cons m t ih =>
      intro c cs
      rw [List.foldl_cons, List.countP_cons]
      show (t.foldl (syncFoldStep env book)
        (c + (if (syncOne env book m).1 then 1 else 0), _)).1 = _
      rw [ih]
      cases h : (syncOne env book m).1 <;> (simp [h]; try omega)

theorem syncFold_unknown (env : SyncEnv) (book : AudioBook) :
    ∀ (ms : List BookMapping) (acc : Nat × List SyncCall),
      (∀ m ∈ ms, m.platform ≠ "hardcovers" ∧ m.platform ≠ "storygraph") →
      ms.foldl (syncFoldStep env book) acc = acc := by
  intro ms
  induction ms with
  | nil => intro acc _; rfl
  | cons m t ih =>
      intro acc hunk
      obtain ⟨h1, h2⟩ := hunk m (List.mem_cons_self m t)
      have hone : syncOne env book m = (false, []) := by
        simp [syncOne, h1, h2]
      rw [List.foldl_cons]
      have hstep : syncFoldStep env book acc m = acc := by
        simp [syncFoldStep, hone]
      rw [hstep]
      exact ih acc (fun x hx => hunk x (List.mem_cons_of_mem m hx))

/-! ### Claim C1 -/

/-- Claim C1 counterexample: for a book with zero mappings,
sync_book_progress returns early at the empty-mappings check and never
reaches the last-synced update, so the timestamp stays unset, contradicting
the claim that it is set and persisted unconditionally including in the
zero-mapping case. -/
theorem c1_counterexample :
    sync_book_progress envNoop bookA [] 5 = (false, bookA, []) ∧
    bookA.last_synced_at = none ∧
    (sync_book_progress envNoop bookA [] 5).2.1.last_synced_at = none :=
  ⟨rfl, rfl, rfl⟩

/-- Claim C1 (amended): for every book with at least one mapping,
sync_book_progress sets and persists the last-synced timestamp
unconditionally after attempting all mappings — in particular even when
every per-platform push failed or faulted, since those outcomes are caught
per platform; with zero mappings the function instead returns early without
touching the timestamp. -/
theorem c1_last_synced_set (env : SyncEnv) (book : AudioBook)
    (mappings : List BookMapping) (now : Nat) (h : mappings ≠ []) :
    (sync_book_progress env book mappings now).2.1
      = { book with last_synced_at := some now } ∧
    (sync_book_progress env book mappings now).2.1.last_synced_at = some now := by
  have hne : mappings.isEmpty = false := by
    cases mappings with
    | nil => exact absurd rfl h
    | cons a t => rfl
  constructor <;> simp [sync_book_progress, hne]

theorem c1_witness :
    ([mapHC] ≠ ([] : List BookMapping)) ∧
    (sync_book_progress envNoop bookA [mapHC] 7).2.1.last_synced_at = some 7 :=
  ⟨by decide, (c1_last_synced_set envNoop bookA [mapHC] 7 (by decide)).2⟩

/-! ### Claim C7 -/

/-- Claim C7: sync_book_progress returns true exactly when at least one
mapped platform sync step succeeded; a book with zero mappings returns
false with no adapter call made; and a platform sync step succeeds exactly
when the total duration is nonzero and the update-progress adapter call
returned True. -/
theorem c7_success_iff (env : SyncEnv) (book : AudioBook)
    (mappings : List BookMapping) (now : Nat) :
    ((sync_book_progress env book mappings now).1
      = mappings.any (fun m => (syncOne env book m).1))
  ∧ sync_book_progress env book [] now = (false, book, [])
  ∧ (∀ m : BookMapping, m.platform = "hardcovers" →
      ((syncOne env book m).1 = true ↔
        (book.total_duration ≠ 0 ∧
          env.hardcoversUpdate m.platform_book_id
            (clampPercent (progressPercent book)) = UpdateOutcome.ok)))
  ∧ (∀ m : BookMapping, m.platform = "storygraph" →
      ((syncOne env book m).1 = true ↔
        (book.total_duration ≠ 0 ∧
          env.storygraphUpdate m.platform_book_id
            (clampPercent (progressPercent book)) book.is_finished
              = UpdateOutcome.ok))) := by
  refine ⟨?_, rfl, ?_, ?_⟩
  · cases hms : mappings with
    | nil => rfl
    | cons m t =>
        have hne : mappings.isEmpty = false := by rw [hms]; rfl
        rw [← hms]
        show (if mappings.isEmpty then ((false : Bool), book, ([] : List SyncCall))
          else
            let acc := mappings.foldl (syncFoldStep env book) (0, [])
            (decide (0 < acc.1), { book with last_synced_at := some now }, acc.2)).1
          = mappings.any (fun m => (syncOne env book m).1)
        rw [hne]
        simp only [Bool.false_eq_true, if_false]
        rw [syncFold_fst env book mappings 0 []]
        rw [Nat.zero_add]
        rcases hany : mappings.any (fun m => (syncOne env book m).1) with _ | _
        · have : ¬ ∃ x ∈ mappings, (syncOne env book x).1 = true := by
            intro hex
            rw [← List.any_eq_true] at hex
            rw [hany] at hex
            cases hex
          have hz : mappings.countP (fun m => (syncOne env book m).1) = 0 := by
            by_contra hnz
            have hpos : 0 < mappings.countP (fun m => (syncOne env book m).1) :=
              Nat.pos_of_ne_zero hnz
            exact this (List.countP_pos_iff.mp hpos)
          rw [hz]
          rfl
        · have hex : ∃ x ∈ mappings, (syncOne env book x).1 = true :=
            List.any_eq_true.mp hany
          have hpos : 0 < mappings.countP (fun m => (syncOne env book m).1) :=
            List.countP_pos_iff.mpr hex
          simp [hpos]
  · intro m hm
    simp only [syncOne, hm, if_pos]
    unfold syncToHardcovers
    by_cases hd : book.total_duration = 0
    · simp [hd]
    · simp only [hd, if_false, if_neg hd]
      cases houtcome : env.hardcoversUpdate m.platform_book_id
          (clampPercent (progressPercent book)) <;>
        simp [houtcome, hd]
  · intro m hm
    have hnh : ¬ m.platform = "hardcovers" := by rw [hm]; decide
    simp only [syncOne, hm, if_neg hnh, if_pos]
    unfold syncToStorygraph
    by_cases hd : book.total_duration = 0
    · simp [hd]
    · simp only [hd, if_false, if_neg hd]
      cases houtcome : env.storygraphUpdate m.platform_book_id
          (clampPercent (progressPercent book)) book.is_finished <;>
        simp [houtcome, hd]

theorem c7_witness :
    ((sync_book_progress envNoop bookA [mapHC] 3).1
      = [mapHC].any (fun m => (syncOne envNoop bookA m).1))
  ∧ sync_book_progress envNoop bookA [] 3 = (false, bookA, [])
  ∧ ((syncOne envOk bookA mapHC).1 = true ↔
      (bookA.total_duration ≠ 0 ∧
        envOk.hardcoversUpdate mapHC.platform_book_id
          (clampPercent (progressPercent bookA)) = UpdateOutcome.ok)) :=
  ⟨(c7_success_iff envNoop bookA [mapHC] 3).1,
   (c7_success_iff envNoop bookA [mapHC] 3).2.1,
   (c7_success_iff envOk bookA [mapHC] 3).2.2.1 mapHC rfl⟩

/-! ### Claim C8 -/

/-- Claim C8: for a book whose total duration is 0, each per-platform sync
step returns failure without making any update-progress adapter call. -/
theorem c8_zero_duration (env : SyncEnv) (book : AudioBook) (m : BookMapping)
    (h : book.total_duration = 0) :
    syncToHardcovers env book m = (false, []) ∧
    syncToStorygraph env book m = (false, []) := by
  constructor <;> simp [syncToHardcovers, syncToStorygraph, h]

theorem c8_witness :
    bookZ.total_duration = 0 ∧
    syncToHardcovers envOk bookZ mapHC = (false, []) ∧
    syncToStorygraph envOk bookZ mapHC = (false, []) :=
  ⟨rfl, (c8_zero_duration envOk bookZ mapHC rfl).1,
    (c8_zero_duration envOk bookZ mapHC rfl).2⟩

/-! ### Claim C10 -/

/-- Claim C10: a mapping whose platform is neither hardcovers nor storygraph
produces no adapter call and no success increment; a book all of whose
mappings are unknown platforms therefore returns overall failure while still
going through the last-synced update. -/
theorem c10_unknown_platform (env : SyncEnv) (book : AudioBook)
    (mappings : List BookMapping) (now : Nat)
    (hne : mappings ≠ [])
    (hunk : ∀ m ∈ mappings, m.platform ≠ "hardcovers" ∧ m.platform ≠ "storygraph") :
    (∀ m ∈ mappings, syncOne env book m = (false, [])) ∧
    sync_book_progress env book mappings now
      = (false, { book with last_synced_at := some now }, []) := by
  constructor
  · intro m hm
    obtain ⟨h1, h2⟩ := hunk m hm
    simp [syncOne, h1, h2]
  · have hne2 : mappings.isEmpty = false := by
      cases mappings with
      | nil => exact absurd rfl hne
      | cons a t => rfl
    show (if mappings.isEmpty then ((false : Bool), book, ([] : List SyncCall))
      else
        let acc := mappings.foldl (syncFoldStep env book) (0, [])
        (decide (0 < acc.1), { book with last_synced_at := some now }, acc.2))
      = (false, { book with last_synced_at := some now }, [])
    rw [hne2]
    simp only [Bool.false_eq_true, if_false]
    rw [syncFold_unknown env book mappings (0, []) hunk]
    rfl

theorem c10_witness :
    ([mapUnknown] ≠ ([] : List BookMapping)) ∧
    sync_book_progress envOk bookA [mapUnknown] 4
      = (false, { bookA with last_synced_at := some 4 }, []) :=
  ⟨by decide,
   (c10_unknown_platform envOk bookA [mapUnknown] 4 (by decide) (by decide)).2⟩

/-! ### Helper lemmas: the scoring loop of the fuzzy matcher -/

theorem fuzzFold_stable (env : MatchEnv) (query : String) :
    ∀ (l : List Candidate) (acc : Option MatchResult × Nat),
      (bestOf env query l ≤ acc.2 ∨ bestOf env query l < MIN_FUZZY_SCORE) →
      l.foldl (fuzzStep env query) acc = acc := by
  intro l
  induction l with
  | nil => intro acc _; rfl
  | cons c t ih =>
      intro acc h
      have hb : bestOf env query (c :: t)
          = max (candScore env query c) (bestOf env query t) := rfl
      have hs : candScore env query c ≤ bestOf env query (c :: t) := by
        rw [hb]; exact le_max_left _ _
      have ht : bestOf env query t ≤ bestOf env query (c :: t) := by
        rw [hb]; exact le_max_right _ _
      have hstep : fuzzStep env query acc c = acc := by
        unfold fuzzStep
        rw [if_neg]
        rintro ⟨h1, h2⟩
        rcases h with h | h
        · exact absurd h1 (not_lt.mpr (le_trans hs h))
        · exact absurd h2 (not_le.mpr (lt_of_le_of_lt hs h))
      rw [List.foldl_cons, hstep]
      apply ih
      rcases h with h | h
      · exact Or.inl (le_trans ht h)
      · exact Or.inr (lt_of_le_of_lt ht h)

theorem fuzzFold_max (env : MatchEnv) (query : String) :
    ∀ (l : List Candidate) (acc : Option MatchResult × Nat) (M : Nat),
      bestOf env query l = M → acc.2 < M → MIN_FUZZY_SCORE ≤ M →
      ∃ r, l.find? (fun c => candScore env query c == M) = some r ∧
        l.foldl (fuzzStep env query) acc
          = (some { platform_id := r.id, confidence := (M : Rat) / 100 }, M) := by
  intro l
  induction l with
  | nil =>
      intro acc M hM hlt hmin
      exfalso
      have h0 : M = 0 := by rw [← hM]; rfl
      rw [h0] at hmin
      exact absurd hmin (by decide)
  | cons c t ih =>
      intro acc M hM hlt hmin
      have hb : bestOf env query (c :: t)
          = max (candScore env query c) (bestOf env query t) := rfl
      by_cases hcs : bestOf env query t ≤ candScore env query c
      · have hsM : candScore env query c = M := by
          rw [← hM, hb, max_eq_left hcs]
        have hstep : fuzzStep env query acc c
            = (some { platform_id := c.id, confidence := (M : Rat) / 100 }, M) := by
          unfold fuzzStep
          rw [if_pos ⟨by rw [hsM]; exact hlt, by rw [hsM]; exact hmin⟩, hsM]
        refine ⟨c, ?_, ?_⟩
        · exact List.find?_cons_of_pos _ (by simp [hsM])
        · rw [List.foldl_cons, hstep]
          exact fuzzFold_stable env query t _ (Or.inl (hsM ▸ hcs))
      · push_neg at hcs
        have htM : bestOf env query t = M := by
          rw [← hM, hb, max_eq_right (le_of_lt hcs)]
        have hsM : candScore env query c < M := htM ▸ hcs
        have hpred : ((fun x => candScore env query x == M) c) = false := by
          simp [Nat.ne_of_lt hsM]
        by_cases hfire : acc.2 < candScore env query c ∧
            MIN_FUZZY_SCORE ≤ candScore env query c
        · have hstep : fuzzStep env query acc c
              = (some { platform_id := c.id,
                        confidence := (candScore env query c : Rat) / 100 },
                 candScore env query c) := by
            unfold fuzzStep
            rw [if_pos hfire]
          obtain ⟨r, hf, hfold⟩ := ih
            (some { platform_id := c.id,
                    confidence := (candScore env query c : Rat) / 100 },
             candScore env query c) M htM hsM hmin
          refine ⟨r, ?_, ?_⟩
          · rw [List.find?_cons_of_neg _ (by simp [Nat.ne_of_lt hsM])]
            exact hf
          · rw [List.foldl_cons, hstep]
            exact hfold
        · have hstep : fuzzStep env query acc c = acc := by
            unfold fuzzStep
            rw [if_neg hfire]
          obtain ⟨r, hf, hfold⟩ := ih acc M htM hlt hmin
          refine ⟨r, ?_, ?_⟩
          · rw [List.find?_cons_of_neg _ (by simp [Nat.ne_of_lt hsM])]
            exact hf
          · rw [List.foldl_cons, hstep]
            exact hfold

/-! ### Claim C3 -/

/-- Claim C3: the fuzzy scoring loop selects the candidate with the strictly
highest score, breaking ties in favour of the first one in result order (the
first candidate achieving the maximum, via find?), returns confidence =
score / 100, and returns no match when the best score is below
MIN_FUZZY_SCORE = 80; in particular candidates scoring 60, 79 and 81 yield
the 81-scoring candidate with confidence 0.81, and a best score of 79 is
rejected. -/
theorem c3_fuzzy_selection (env : MatchEnv) (query : String)
    (results : List Candidate) :
    (matchByFuzzyCore env query results
      = if MIN_FUZZY_SCORE ≤ bestOf env query results then
          (results.find?
              (fun c => candScore env query c == bestOf env query results)).map
            (fun r => { platform_id := r.id,
                        confidence := (bestOf env query results : Rat) / 100 })
        else none)
  ∧ matchByFuzzyCore env3 "Dune Frank Herbert" [candA, candB, candC]
      = some { platform_id := "cC", confidence := (81 : Rat) / 100 }
  ∧ matchByFuzzyCore env79 "Dune Frank Herbert" [candA, candB] = none := by
  refine ⟨?_, by rfl, by rfl⟩
  by_cases h : MIN_FUZZY_SCORE ≤ bestOf env query results
  · have h0 : ((none : Option MatchResult), 0).2 < bestOf env query results :=
      lt_of_lt_of_le (by decide) h
    obtain ⟨r, hf, hfold⟩ :=
      fuzzFold_max env query results (none, 0) (bestOf env query results) rfl h0 h
    rw [if_pos h, hf]
    unfold matchByFuzzyCore
    rw [hfold]
    rfl
  · rw [if_neg h]
    unfold matchByFuzzyCore
    rw [fuzzFold_stable env query results (none, 0) (Or.inr (not_le.mp h))]

/-! ### Helper lemmas: preservation of mapping rows by the matcher -/

theorem find?_append_some {α : Type} (p : α → Bool) :
    ∀ (l₁ l₂ : List α) (a : α), l₁.find? p = some a → (l₁ ++ l₂).find? p = some a := by
  intro l₁
  induction l₁ with
  | nil => intro l₂ a h; cases h
  | cons x t ih =>
      intro l₂ a h
      cases hp : p x with
      | true =>
          rw [List.find?_cons_of_pos _ hp] at h
          rw [List.cons_append, List.find?_cons_of_pos _ hp]
          exact h
      | false =>
          rw [List.find?_cons_of_neg _ (by simp [hp])] at h
          rw [List.cons_append, List.find?_cons_of_neg _ (by simp [hp])]
          exact ih l₂ a h

theorem countPair_append_other (db : List BookMapping) (row : BookMapping)
    (bid : Nat) (pf : String)
    (h : (row.audiobook_id == bid && row.platform == pf) = false) :
    countPair (db ++ [row]) bid pf = countPair db bid pf := by
  unfold countPair
  rw [List.filter_append]
  simp [List.filter, h]

theorem foldl_inv {σ α : Type} (Inv : σ → Prop) (f : σ → α → σ)
    (hf : ∀ s a, Inv s → Inv (f s a)) :
    ∀ (l : List α) (s : σ), Inv s → Inv (l.foldl f s) := by
  intro l
  induction l with
  | nil => intro s hs; exact hs
  | cons x t ih => intro s hs; exact ih _ (hf s x hs)

theorem matchStep_keeps (env : MatchEnv) (book : AudioBook) (q : String)
    (bid : Nat) (pf : String) (m : BookMapping) (st : MatchState)
    (h : findMapping st.db bid pf = some m) :
    findMapping (matchStep env book q st).db bid pf = some m
    ∧ countPair (matchStep env book q st).db bid pf = countPair st.db bid pf := by
  unfold matchStep
  cases hex : findMapping st.db book.id q with
  | some x => exact ⟨h, rfl⟩
  | none =>
      cases hm2 : (match_book_on_platform env st.db book q).1 with
      | none => exact ⟨h, rfl⟩
      | some r =>
          have hpair : ¬ (book.id = bid ∧ q = pf) := by
            rintro ⟨h1, h2⟩
            subst h1
            subst h2
            rw [h] at hex
            cases hex
          have hfalse : ((book.id == bid) && (q == pf)) = false := by
            by_cases h1 : book.id = bid
            · by_cases h2 : q = pf
              · exact absurd ⟨h1, h2⟩ hpair
              · simp [h2]
            · simp [h1]
          constructor
          · exact find?_append_some _ st.db _ m h
          · exact countPair_append_other st.db _ bid pf hfalse

theorem matchStep_db_cases (env : MatchEnv) (book : AudioBook) (q : String)
    (st : MatchState) :
    (matchStep env book q st).db = st.db
    ∨ ∃ row, (matchStep env book q st).db = st.db ++ [row] := by
  unfold matchStep
  cases hex : findMapping st.db book.id q with
  | some x => exact Or.inl rfl
  | none =>
      cases hm2 : (match_book_on_platform env st.db book q).1 with
      | none => exact Or.inl rfl
      | some r => exact Or.inr ⟨_, rfl⟩

theorem match_all_keeps (env : MatchEnv) (books : List AudioBook)
    (db : List BookMapping) (nextId : Nat) (platforms : List String)
    (bid : Nat) (pf : String) (m : BookMapping)
    (h : findMapping db bid pf = some m) :
    findMapping (match_all_books env books db nextId platforms).db bid pf = some m
    ∧ countPair (match_all_books env books db nextId platforms).db bid pf
      = countPair db bid pf := by
  refine foldl_inv
    (fun st : MatchState => findMapping st.db bid pf = some m
      ∧ countPair st.db bid pf = countPair db bid pf)
    _ ?_ books _ ⟨h, rfl⟩
  intro st book hst
  refine foldl_inv
    (fun st : MatchState => findMapping st.db bid pf = some m
      ∧ countPair st.db bid pf = countPair db bid pf)
    _ ?_ platforms st hst
  intro st2 p hst2
  obtain ⟨hA, hB⟩ := hst2
  obtain ⟨hA2, hB2⟩ := matchStep_keeps env book p bid pf m st2 hA
  exact ⟨hA2, hB2.trans hB⟩

theorem match_all_extends (env : MatchEnv) (books : List AudioBook)
    (db : List BookMapping) (nextId : Nat) (platforms : List String) :
    ∃ t, (match_all_books env books db nextId platforms).db = db ++ t := by
  refine foldl_inv (fun st : MatchState => ∃ t, st.db = db ++ t)
    _ ?_ books _ ⟨[], (List.append_nil db).symm⟩
  intro st book hst
  refine foldl_inv (fun st : MatchState => ∃ t, st.db = db ++ t)
    _ ?_ platforms st hst
  intro st2 p hst2
  obtain ⟨t, ht⟩ := hst2
  rcases matchStep_db_cases env book p st2 with hcase | ⟨row, hcase⟩
  · exact ⟨t, by rw [hcase, ht]⟩
  · exact ⟨t ++ [row], by rw [hcase, ht, List.append_assoc]⟩

/-! ### Claim C4 -/

/-- Claim C4: when a mapping for (book, platform) already exists,
match_book_on_platform returns its platform id and confidence unchanged
with no remote call, and match_all_books keeps that mapping as the first
row found for the pair and adds no second row for the pair. -/
theorem c4_idempotent (env : MatchEnv) (db : List BookMapping)
    (book : AudioBook) (platform : String) (m : BookMapping)
    (books : List AudioBook) (nextId : Nat) (platforms : List String)
    (h : findMapping db book.id platform = some m) :
    match_book_on_platform env db book platform
      = (some { platform_id := m.platform_book_id,
                confidence := m.match_confidence }, [])
    ∧ findMapping (match_all_books env books db nextId platforms).db
        book.id platform = some m
    ∧ countPair (match_all_books env books db nextId platforms).db
        book.id platform = countPair db book.id platform := by
  refine ⟨?_, (match_all_keeps env books db nextId platforms book.id platform m h).1,
    (match_all_keeps env books db nextId platforms book.id platform m h).2⟩
  unfold match_book_on_platform
  rw [h]

theorem c4_witness :
    (findMapping [mapHC] bookA.id "hardcovers" = some mapHC)
    ∧ match_book_on_platform matchEnvNone [mapHC] bookA "hardcovers"
        = (some { platform_id := mapHC.platform_book_id,
                  confidence := mapHC.match_confidence }, [])
    ∧ countPair (match_all_books matchEnvNone [bookA] [mapHC] 20
        ["hardcovers", "storygraph"]).db bookA.id "hardcovers"
      = countPair [mapHC] bookA.id "hardcovers" :=
  ⟨by rfl,
   (c4_idempotent matchEnvNone [mapHC] bookA "hardcovers" mapHC [bookA] 20
     ["hardcovers", "storygraph"] (by rfl)).1,
   (c4_idempotent matchEnvNone [mapHC] bookA "hardcovers" mapHC [bookA] 20
     ["hardcovers", "storygraph"] (by rfl)).2.2⟩

/-! ### Claim C5 -/

/-- Claim C5: a manual-override mapping row is never mutated by the
automated matcher: match_all_books only appends rows, so the row survives
with its platform book id and confidence intact, and save_match likewise
only appends. -/
theorem c5_manual_override (env : MatchEnv) (books : List AudioBook)
    (db : List BookMapping) (nextId : Nat) (platforms : List String)
    (m : BookMapping) (hm : m ∈ db) (hmanual : m.is_manual_override = true) :
    (∃ t, (match_all_books env books db nextId platforms).db = db ++ t)
    ∧ m ∈ (match_all_books env books db nextId platforms).db
    ∧ ∀ (nid bid : Nat) (pf pbid : String) (conf : Rat) (manual : Bool),
        m ∈ (save_match db nid bid pf pbid conf manual).1 := by
  obtain ⟨t, ht⟩ := match_all_extends env books db nextId platforms
  refine ⟨⟨t, ht⟩, ?_, ?_⟩
  · rw [ht]
    exact List.mem_append_left _ hm
  · intro nid bid pf pbid conf manual
    exact List.mem_append_left _ hm

theorem c5_witness :
    (mapManual ∈ [mapManual] ∧ mapManual.is_manual_override = true)
    ∧ mapManual ∈ (match_all_books matchEnvNone [bookA] [mapManual] 30
        ["hardcovers", "storygraph"]).db :=
  ⟨⟨List.mem_singleton_self mapManual, rfl⟩,
   (c5_manual_override matchEnvNone [bookA] [mapManual] 30
     ["hardcovers", "storygraph"] mapManual (List.mem_singleton_self mapManual)
     rfl).2.1⟩

/-! ### Claim C6 -/

/-- Claim C6: for an unmapped book with an ISBN on hardcovers (the platform
with identifier lookup), a non-empty ISBN lookup result is returned with
confidence exactly 1.0 and no search call is made (the heuristic path is
never reached), and the match_all_books step persists it immediately as a
mapping row with confidence 1.0. -/
theorem c6_isbn_precedence (env : MatchEnv) (db : List BookMapping)
    (book : AudioBook) (r : Candidate) (nid : Nat) (counts : List (String × Nat))
    (hno : findMapping db book.id "hardcovers" = none)
    (hisbn : book.isbn ≠ "")
    (hr : env.hardcoversByIsbn book.isbn = some r) :
    match_book_on_platform env db book "hardcovers"
      = (some { platform_id := r.id, confidence := 1 },
         [MCall.isbnLookup book.isbn])
    ∧ (matchStep env book "hardcovers" { db := db, nextId := nid, counts := counts }).db
      = db ++ [{ id := nid, audiobook_id := book.id, platform := "hardcovers",
                 platform_book_id := r.id, match_confidence := 1,
                 is_manual_override := false }] := by
  have hmb : match_book_on_platform env db book "hardcovers"
      = (some { platform_id := r.id, confidence := 1 },
         [MCall.isbnLookup book.isbn]) := by
    unfold match_book_on_platform
    rw [hno, if_pos hisbn]
    unfold matchByIsbn
    rw [if_pos rfl, hr]
  refine ⟨hmb, ?_⟩
  unfold matchStep
  rw [show findMapping ({ db := db, nextId := nid, counts := counts } : MatchState).db
        book.id "hardcovers" = none from hno]
  rw [show (match_book_on_platform env
        ({ db := db, nextId := nid, counts := counts } : MatchState).db
        book "hardcovers").1 = some { platform_id := r.id, confidence := 1 } from
    by rw [hmb]]
  rfl

theorem c6_witness :
    (findMapping [] bookI.id "hardcovers" = none ∧ bookI.isbn ≠ ""
      ∧ matchEnvIsbn.hardcoversByIsbn bookI.isbn = some candIsbn)
    ∧ match_book_on_platform matchEnvIsbn [] bookI "hardcovers"
      = (some { platform_id := candIsbn.id, confidence := 1 },
         [MCall.isbnLookup bookI.isbn]) :=
  ⟨⟨rfl, by decide, rfl⟩,
   (c6_isbn_precedence matchEnvIsbn [] bookI candIsbn 0 [] rfl (by decide) rfl).1⟩

/-! ### Helper lemmas: the job audit trail of run_periodic_sync -/

theorem getOrCreateBook_frame (st : RunState) (item : Item) :
    (getOrCreateBook st item).1.synced = st.synced
    ∧ (getOrCreateBook st item).1.failed = st.failed
    ∧ (getOrCreateBook st item).1.total_books = st.total_books
    ∧ (getOrCreateBook st item).1.job = st.job
    ∧ (getOrCreateBook st item).1.trace = st.trace := by
  unfold getOrCreateBook
  cases st.books.find? (fun b => b.audiobookshelf_id == item.id) with
  | none => exact ⟨rfl, rfl, rfl, rfl, rfl⟩
  | some b => exact ⟨rfl, rfl, rfl, rfl, rfl⟩

theorem bumpCounters_frame (st : RunState) (ok : Bool) :
    (bumpCounters st ok).synced + (bumpCounters st ok).failed
      = st.synced + st.failed + 1
    ∧ (bumpCounters st ok).total_books = st.total_books
    ∧ (bumpCounters st ok).job = st.job
    ∧ (bumpCounters st ok).trace = st.trace := by
  cases ok with
  | true => refine ⟨?_, rfl, rfl, rfl⟩; show st.synced + 1 + st.failed = _; omega
  | false => exact ⟨rfl, rfl, rfl, rfl⟩

/-- Every itemStep either leaves the state unchanged (the continue at
worker.py line 224) or counts exactly one item and persists one job update
with the new running total. -/
theorem itemStep_cases (env : RunEnv) (st : RunState) (item : Item) :
    itemStep env st item = st
    ∨ ∃ st1 : RunState,
        itemStep env st item
          = recordUpdate st1 (st1.synced + st1.failed) "running" none
        ∧ st1.synced + st1.failed = st.synced + st.failed + 1
        ∧ st1.total_books = st.total_books
        ∧ st1.job = st.job
        ∧ st1.trace = st.trace := by
  unfold itemStep
  cases hp : env.getProgress item.id with
  | error e =>
      right
      refine ⟨_, rfl, ?_, rfl, rfl, rfl⟩
      show st.synced + (st.failed + 1) = st.synced + st.failed + 1
      omega
  | ok op =>
      cases op with
      | none => exact Or.inl rfl
      | some pd =>
          right
          obtain ⟨hs, hf, htb, hjob, htrace⟩ := getOrCreateBook_frame st item
          refine ⟨_, rfl, ?_, ?_, ?_, ?_⟩
          · obtain ⟨hc, _, _, _⟩ := bumpCounters_frame _ _
            rw [hc]
            show (getOrCreateBook st item).1.synced
              + (getOrCreateBook st item).1.failed + 1 = _
            rw [hs, hf]
          · obtain ⟨_, hc, _, _⟩ := bumpCounters_frame _ _
            rw [hc]
            exact htb
          · obtain ⟨_, _, hc, _⟩ := bumpCounters_frame _ _
            rw [hc]
            exact hjob
          · obtain ⟨_, _, _, hc⟩ := bumpCounters_frame _ _
            rw [hc]
            exact htrace

theorem itemStep_inv (env : RunEnv) (st : RunState) (item : Item)
    (h : jobTraceInv st)
    (headroom : st.synced + st.failed + 1 ≤ st.total_books) :
    jobTraceInv (itemStep env st item)
    ∧ (itemStep env st item).total_books = st.total_books
    ∧ (itemStep env st item).synced + (itemStep env st item).failed
        ≤ st.synced + st.failed + 1 := by
  obtain ⟨hTr, hJ, hCnt⟩ := h
  rcases itemStep_cases env st item with hcase | ⟨st1, hcase, hc, htb, hjob, htrace⟩
  · rw [hcase]
    exact ⟨⟨hTr, hJ, hCnt⟩, rfl, Nat.le_succ _⟩
  · rw [hcase]
    have hjob2 : (recordUpdate st1 (st1.synced + st1.failed) "running" none).job
        = update_sync_job st1.job (st1.synced + st1.failed) "running" none := rfl
    refine ⟨⟨?_, ?_, ?_⟩, ?_, ?_⟩
    · intro j hj
      have hj2 : j ∈ st1.trace ++
          [update_sync_job st1.job (st1.synced + st1.failed) "running" none] := hj
      rcases List.mem_append.mp hj2 with hj3 | hj3
      · rw [htrace] at hj3
        obtain ⟨h1, h2⟩ := hTr j hj3
        refine ⟨h1, ?_⟩
        show j.processed_items ≤ st1.total_books
        rw [htb]
        exact h2
      · have hjeq : j = update_sync_job st1.job (st1.synced + st1.failed)
            "running" none := by
          cases hj3 with
          | head => rfl
          | tail _ hx => cases hx
        subst hjeq
        constructor
        · show st1.job.total_items = 0
          rw [hjob]
          exact hJ
        · show st1.synced + st1.failed ≤ st1.total_books
          rw [hc, htb]
          exact headroom
    · show (update_sync_job st1.job (st1.synced + st1.failed) "running" none).total_items = 0
      show st1.job.total_items = 0
      rw [hjob]
      exact hJ
    · show st1.synced + st1.failed ≤ st1.total_books
      rw [hc, htb]
      exact headroom
    · exact htb
    · show st1.synced + st1.failed ≤ st.synced + st.failed + 1
      rw [hc]

theorem itemFold_inv (env : RunEnv) :
    ∀ (l : List Item) (st : RunState),
      jobTraceInv st →
      st.synced + st.failed + l.length ≤ st.total_books →
      jobTraceInv (l.foldl (itemStep env) st)
      ∧ (l.foldl (itemStep env) st).total_books = st.total_books := by
  intro l
  induction l with
  | nil => intro st h _; exact ⟨h, rfl⟩
  | cons it t ih =>
      intro st h hroom
      have h1 : st.synced + st.failed + 1 ≤ st.total_books := by
        have hlen : st.synced + st.failed + (t.length + 1) ≤ st.total_books := by
          simpa [List.length_cons] using hroom
        omega
      obtain ⟨hInv, htb, hhigh⟩ := itemStep_inv env st it h h1
      rw [List.foldl_cons]
      have hroom2 : (itemStep env st it).synced + (itemStep env st it).failed
          + t.length ≤ (itemStep env st it).total_books := by
        rw [htb]
        have hlen : st.synced + st.failed + (t.length + 1) ≤ st.total_books := by
          simpa [List.length_cons] using hroom
        omega
      obtain ⟨hI, hT⟩ := ih (itemStep env st it) hInv hroom2
      exact ⟨hI, hT.trans htb⟩

theorem runLibs_inv (env : RunEnv) :
    ∀ (ls : List (Option Library)) (st : RunState), jobTraceInv st →
      jobTraceInv (passState (runLibs env ls st))
      ∧ st.total_books ≤ (passState (runLibs env ls st)).total_books := by
  intro ls
  induction ls with
  | nil => intro st h; exact ⟨h, Nat.le_refl _⟩
  | cons e rest ih =>
      intro st h
      cases e with
      | none => exact ⟨h, Nat.le_refl _⟩
      | some lib =>
          cases hit : env.items lib.id with
          | error msg =>
              have hred : runLibs env (some lib :: rest) st
                  = runLibs env rest
                      { st with errors := st.errors ++ [libErr lib.id msg] } := by
                show (match libStep env st (some lib) with
                  | .error s => Except.error s
                  | .ok s => runLibs env rest s) = _
                simp only [libStep, hit]
              rw [hred]
              have h2 : jobTraceInv
                  { st with errors := st.errors ++ [libErr lib.id msg] } := h
              exact ih _ h2
          | ok its =>
              have hred : runLibs env (some lib :: rest) st
                  = runLibs env rest
                      (its.foldl (itemStep env)
                        { st with total_books := st.total_books + its.length }) := by
                show (match libStep env st (some lib) with
                  | .error s => Except.error s
                  | .ok s => runLibs env rest s) = _
                simp only [libStep, hit]
              rw [hred]
              obtain ⟨hTr, hJ, hCnt⟩ := h
              have h2 : jobTraceInv
                  { st with total_books := st.total_books + its.length } := by
                refine ⟨?_, hJ, ?_⟩
                · intro j hj
                  obtain ⟨h1, h2⟩ := hTr j hj
                  exact ⟨h1, h2.trans (Nat.le_add_right _ _)⟩
                · exact Nat.le_trans hCnt (Nat.le_add_right _ _)
              have hroom : st.synced + st.failed + its.length
                  ≤ st.total_books + its.length := by omega
              obtain ⟨hI, hT⟩ := itemFold_inv env its
                { st with total_books := st.total_books + its.length } h2 hroom
              obtain ⟨hI2, hT2⟩ := ih _ hI
              refine ⟨hI2, ?_⟩
              calc st.total_books
                  ≤ st.total_books + its.length := Nat.le_add_right _ _
                _ = (its.foldl (itemStep env)
                      { st with total_books := st.total_books + its.length }).total_books :=
                    hT.symm
                _ ≤ _ := hT2

theorem initState_inv (env : RunEnv) : jobTraceInv (initState env) := by
  refine ⟨?_, rfl, Nat.le_refl _⟩
  intro j hj
  have hjeq : j = create_sync_job "sync_progress" 0 := by
    cases hj with
    | head => rfl
    | tail _ hx => cases hx
  subst hjeq
  exact ⟨rfl, Nat.le_refl _⟩

/-! ### Claim C2 -/

/-- Claim C2 counterexample: in the pass of envC2 one item is processed, so
the persisted job states include one with processed_items = 1 while
total_items is still 0 — the processed count exceeds the total count,
contradicting the claimed invariant. -/
theorem c2_counterexample :
    ((run_periodic_sync envC2).2.any
      (fun j => decide (j.total_items < j.processed_items))) = true := by decide

/-- Claim C2 (amended): run_periodic_sync creates the job with total_items 0
and never updates total_items, so every persisted job state has
total_items = 0 while processed_items grows with each handled item; the
bound that actually holds is processed_items ≤ the number of enumerated
items, not processed_items ≤ total_items. -/
theorem c2_amended (env : RunEnv) (j : SyncJob)
    (hj : j ∈ (run_periodic_sync env).2) :
    j.total_items = 0 ∧ j.processed_items ≤ runEnumerated env := by
  unfold run_periodic_sync at hj
  by_cases hemp : env.libraries.isEmpty
  · rw [if_pos hemp] at hj
    have hnil : env.libraries = [] := by
      cases hls : env.libraries with
      | nil => rfl
      | cons a t => rw [hls] at hemp; cases hemp
    have hre : runEnumerated env = 0 := by
      unfold runEnumerated
      rw [hnil]
      rfl
    rw [hre]
    rcases List.mem_cons.mp hj with hj2 | hj2
    · subst hj2; exact ⟨rfl, Nat.le_refl _⟩
    · have hjeq : j = update_sync_job (create_sync_job "sync_progress" 0) 0
          "completed" none := by
        cases hj2 with
        | head => rfl
        | tail _ hx => cases hx
      subst hjeq
      exact ⟨rfl, Nat.le_refl _⟩
  · rw [if_neg hemp] at hj
    have hbase := runLibs_inv env env.libraries (initState env) (initState_inv env)
    cases hrun : runLibs env env.libraries (initState env) with
    | ok s =>
        rw [hrun] at hj hbase
        obtain ⟨⟨hTr, hJ, hCnt⟩, _⟩ := hbase
        have hre : runEnumerated env = s.total_books := by
          unfold runEnumerated
          rw [hrun]
        rw [hre]
        rcases List.mem_append.mp hj with hj2 | hj2
        · exact hTr j hj2
        · have hjeq : j = update_sync_job s.job (s.synced + s.failed)
              "completed" none := by
            cases hj2 with
            | head => rfl
            | tail _ hx => cases hx
          subst hjeq
          exact ⟨hJ, hCnt⟩
    | error s =>
        rw [hrun] at hj hbase
        obtain ⟨⟨hTr, hJ, hCnt⟩, _⟩ := hbase
        have hre : runEnumerated env = s.total_books := by
          unfold runEnumerated
          rw [hrun]
        rw [hre]
        rcases List.mem_append.mp hj with hj2 | hj2
        · exact hTr j hj2
        · have hjeq : j = update_sync_job s.job 0 "failed" (some fatalMsg) := by
            cases hj2 with
            | head => rfl
            | tail _ hx => cases hx
          subst hjeq
          exact ⟨hJ, Nat.zero_le _⟩

theorem c2_witness :
    (create_sync_job "sync_progress" 0 ∈ (run_periodic_sync envC2).2)
    ∧ (create_sync_job "sync_progress" 0).total_items = 0
    ∧ (create_sync_job "sync_progress" 0).processed_items ≤ runEnumerated envC2 :=
  ⟨by decide,
   (c2_amended envC2 (create_sync_job "sync_progress" 0) (by decide)).1,
   (c2_amended envC2 (create_sync_job "sync_progress" 0) (by decide)).2⟩

/-! ### Claim C9 -/

theorem runLibs_fatal (env : RunEnv) :
    ∀ (ls : List (Option Library)) (st : RunState), none ∈ ls →
      ∃ s, runLibs env ls st = .error s := by
  intro ls
  induction ls with
  | nil => intro st h; cases h
  | cons e rest ih =>
      intro st h
      cases e with
      | none => exact ⟨st, rfl⟩
      | some lib =>
          have hmem : none ∈ rest := by
            rcases List.mem_cons.mp h with h2 | h2
            · cases h2
            · exact h2
          cases hit : env.items lib.id with
          | error msg =>
              obtain ⟨s, hs⟩ := ih _ hmem
              refine ⟨s, ?_⟩
              show (match libStep env st (some lib) with
                | .error s => Except.error s
                | .ok s => runLibs env rest s) = _
              simp only [libStep, hit]
              exact hs
          | ok its =>
              obtain ⟨s, hs⟩ := ih _ hmem
              refine ⟨s, ?_⟩
              show (match libStep env st (some lib) with
                | .error s => Except.error s
                | .ok s => runLibs env rest s) = _
              simp only [libStep, hit]
              exact hs

/-- Claim C9: when a fault escapes to the outer handler of
run_periodic_sync (modelled by a malformed library entry, which raises at
library.get before the per-library handler), the job is finalized failed
with processed_items overwritten to 0 and a completion timestamp, and the
returned result reports synced_count 0 and failed_count 0 with only the
fatal error message — whatever was counted before the fault. -/
theorem c9_fatal (env : RunEnv) (h : none ∈ env.libraries) :
    (run_periodic_sync env).1
      = { synced_count := 0, failed_count := 0, total_books := none,
          errors := [fatalMsg] }
    ∧ ∃ jl, (run_periodic_sync env).2.getLast? = some jl
        ∧ jl.status = "failed" ∧ jl.processed_items = 0
        ∧ jl.completed_at_set = true := by
  have hne : ¬ env.libraries.isEmpty = true := by
    cases hls : env.libraries with
    | nil => rw [hls] at h; cases h
    | cons a t => simp
  obtain ⟨s, hs⟩ := runLibs_fatal env env.libraries (initState env) h
  unfold run_periodic_sync
  rw [if_neg hne, hs]
  refine ⟨rfl, update_sync_job s.job 0 "failed" (some fatalMsg), ?_, rfl, rfl, rfl⟩
  exact List.getLast?_concat _

theorem c9_witness :
    ((none : Option Library) ∈ envC9.libraries)
    ∧ ((run_periodic_sync envC9).2.any (fun j => decide (0 < j.processed_items))
        = true)
    ∧ (run_periodic_sync envC9).1
      = { synced_count := 0, failed_count := 0, total_books := none,
          errors := [fatalMsg] } :=
  ⟨by decide, by decide, (c9_fatal envC9 (by decide)).1⟩

end AudiobookSync
